import Mathlib

/-!
Verification of the claims-data aggregation and financial-metrics pipeline
in src/utils/dataProcessor.js (vision-be).

Numbers are embedded as rationals (JS arithmetic on these inputs is exact
for the quantities the claims are about), dates as epoch-millisecond
integers.  The host date parser (new Date / parseDate) is
implementation-defined locale parsing, so date-valued raw fields are
modelled by the parsed result: some ms for a successfully parsed date,
none for an absent or unparseable one.  All other functions are direct
transcriptions of the JavaScript source.
-/

/-- Characters kept by the regex replace in parseNumber: [0-9.-]. -/
def numericChar (c : Char) : Bool := c.isDigit || c == '.' || c == '-'

/-- Digit list to natural number, most significant first. -/
def digitsToNat (ds : List Char) : Nat :=
  ds.foldl (fun n c => 10 * n + (c.toNat - '0'.toNat)) 0

/-- Model of the host parseFloat restricted to its use site in parseNumber,
where the argument contains only characters from [0-9.-]: an optional
leading minus sign, then the longest prefix of the form digits [. digits];
none (JS NaN) when that prefix contains no digit. -/
def parseFloatQ (chars : List Char) : Option ℚ :=
  let signed : Bool × List Char :=
    match chars with
    | '-' :: cs => (true, cs)
    | cs => (false, cs)
  let intPart := signed.2.takeWhile Char.isDigit
  let rest := signed.2.dropWhile Char.isDigit
  let fracPart :=
    match rest with
    | '.' :: cs => cs.takeWhile Char.isDigit
    | _ => []
  if intPart = [] && fracPart = [] then none
  else
    let mag : ℚ := (digitsToNat (intPart ++ fracPart) : ℚ) / ((10 : ℚ) ^ fracPart.length)
    some (if signed.1 then -mag else mag)

/-- JS: if (!value || value === '') return 0; strip [^0-9.-]; parseFloat(...) || 0.
A NaN parse result, like a parsed 0, falls through the || to 0. -/
def parseNumber (value : String) : ℚ :=
  if value = "" then 0
  else
    match parseFloatQ (value.toList.filter numericChar) with
    | some q => q
    | none => 0

/-- parseNumber applied to a possibly absent field: a JS undefined argument is
falsy, so the source returns 0 for it. -/
def parseNumberOpt (value : Option String) : ℚ :=
  match value with
  | none => 0
  | some s => parseNumber s

/-- JS String.prototype.includes: substring containment. -/
def includesStr (s pat : String) : Bool := decide (pat.toList <:+: s.toList)

/-- JS truthiness of a possibly absent string: undefined and the empty string
are falsy. -/
def truthyStr (v : Option String) : Bool :=
  match v with
  | none => false
  | some s => s ≠ ""

/-- JS: row.Status && row.Status.includes(pat). The && guards undefined and
the (falsy) empty string. -/
def statusIncludes (st : Option String) (pat : String) : Bool :=
  match st with
  | none => false
  | some s => if s = "" then false else includesStr s pat

/-- JS: row.Status && (row.Status === a || row.Status === b). -/
def statusIsEither (st : Option String) (a b : String) : Bool :=
  match st with
  | none => false
  | some s => if s = "" then false else (s = a || s = b)

/-- JS: row.Status && row.Status.toLowerCase().includes(pat). -/
def statusLowerIncludes (st : Option String) (pat : String) : Bool :=
  match st with
  | none => false
  | some s => if s = "" then false else includesStr s.toLower pat

/-- One raw spreadsheet row.  Text fields are Option String (none = the key
is absent from the record); the three date fields carry the parseDate
result, as explained in the file header. -/
structure RawRow where
  TID : Option String
  PatientName : Option String
  HospitalName : Option String
  Status : Option String
  PkgCode : Option String
  PkgName : Option String
  PkgRate : Option String
  ApprovedAmount : Option String
  QueryRaised : Option String
  DateOfAdmission : Option Int
  DateOfDischarge : Option Int
  PaymentDate : Option Int
  DaysToPayment : Option String
deriving DecidableEq

/-- A RawRow with every field absent, used as a base for example inputs. -/
def rawRowNone : RawRow :=
  { TID := none, PatientName := none, HospitalName := none, Status := none,
    PkgCode := none, PkgName := none, PkgRate := none, ApprovedAmount := none,
    QueryRaised := none, DateOfAdmission := none, DateOfDischarge := none,
    PaymentDate := none, DaysToPayment := none }

/-- Output of preprocessMAAClaims for one row. -/
structure NormalizedRow where
  TID : Option String
  PatientName : Option String
  HospitalName : Option String
  Status : Option String
  PkgCode : Option String
  PkgName : Option String
  PkgRate : ℚ
  ApprovedAmount : ℚ
  QueryRaised : ℚ
  DateOfAdmission : Option Int
  DateOfDischarge : Option Int
  PaymentDate : Option Int
  DaysToPayment : ℚ
  ActualPaidAmount : ℚ
deriving DecidableEq

/-- Milliseconds in a day, 1000*60*60*24. -/
def msPerDay : ℚ := 86400000

/-- preprocessMAAClaims from src/utils/dataProcessor.js: per-row parsing of
numeric fields, derived Days to Payment and Actual Paid Amount. -/
def preprocessMAAClaims (data : List RawRow) : List NormalizedRow :=
  data.map fun row =>
    let pkgRate := parseNumberOpt row.PkgRate
    let approvedAmount := parseNumberOpt row.ApprovedAmount
    -- JS: parseNumber(row[QueryRaised] || zero-string)
    let queryRaised := parseNumber
      (match row.QueryRaised with
       | none => "0"
       | some s => if s = "" then "0" else s)
    -- JS: if (row[DaysToPayment]) parseNumber(...) else if (discharge && payment)
    -- max(0, floor((payment - discharge)/msPerDay)) else 0
    let daysToPayment : ℚ :=
      if truthyStr row.DaysToPayment then parseNumberOpt row.DaysToPayment
      else
        match row.DateOfDischarge, row.PaymentDate with
        | some d, some p => ((max 0 ⌊(((p - d : ℤ) : ℚ)) / msPerDay⌋ : ℤ) : ℚ)
        | _, _ => 0
    let actualPaidAmount : ℚ :=
      if statusIncludes row.Status "Claim Paid" then approvedAmount else 0
    { TID := row.TID, PatientName := row.PatientName,
      HospitalName := row.HospitalName, Status := row.Status,
      PkgCode := row.PkgCode, PkgName := row.PkgName,
      PkgRate := pkgRate, ApprovedAmount := approvedAmount,
      QueryRaised := queryRaised,
      DateOfAdmission := row.DateOfAdmission,
      DateOfDischarge := row.DateOfDischarge,
      PaymentDate := row.PaymentDate,
      DaysToPayment := daysToPayment,
      ActualPaidAmount := actualPaidAmount }

/-- Validation result object: valid flag plus optional error message. -/
structure ValidationResult where
  valid : Bool
  error : Option String
deriving DecidableEq

/-- Required column list of validateMAAClaims, in source order. -/
def requiredColumns : List String :=
  ["TID", "Patient Name", "Hospital Name", "Status", "Pkg Rate", "Approved Amount"]

/-- JS: col in sampleRow, for the six required columns. -/
def hasColumn (row : RawRow) (col : String) : Bool :=
  if col = "TID" then row.TID.isSome
  else if col = "Patient Name" then row.PatientName.isSome
  else if col = "Hospital Name" then row.HospitalName.isSome
  else if col = "Status" then row.Status.isSome
  else if col = "Pkg Rate" then row.PkgRate.isSome
  else if col = "Approved Amount" then row.ApprovedAmount.isSome
  else false

/-- requiredColumns.filter(col => !(col in sampleRow)). -/
def missingColumnsOf (row : RawRow) : List String :=
  requiredColumns.filter (fun col => !(hasColumn row col))

/-- validateMAAClaims from src/utils/dataProcessor.js. -/
def validateMAAClaims (data : List RawRow) : ValidationResult :=
  match data with
  | [] => { valid := false, error := some "No data found" }
  | sampleRow :: _ =>
    let missingColumns := missingColumnsOf sampleRow
    if missingColumns.length > 0 then
      { valid := false,
        error := some ("Missing required columns: " ++ String.intercalate ", " missingColumns) }
    else
      { valid := true, error := none }

/-- Per-row package detail pushed onto a claim's components list. -/
structure ComponentRecord where
  PkgCode : Option String
  PkgName : Option String
  ComponentPkgRate : ℚ
  ComponentApprovedAmount : ℚ
deriving DecidableEq

/-- Aggregated claim, keyed by TID.  The ...row spread keeps the first-seen
descriptive fields (including Days to Payment, which the source does not
reset to 0), while the four financial accumulators are re-initialised. -/
structure Claim where
  TID : Option String
  PatientName : Option String
  HospitalName : Option String
  Status : Option String
  PkgCode : Option String
  PkgName : Option String
  DateOfAdmission : Option Int
  DateOfDischarge : Option Int
  PaymentDate : Option Int
  DaysToPayment : ℚ
  PkgRate : ℚ
  ApprovedAmount : ℚ
  ActualPaidAmount : ℚ
  QueryRaised : ℚ
  components : List ComponentRecord
deriving DecidableEq

/-- JS: const tid = row.TID; if (!tid) return acc — undefined and the empty
string are falsy, every other string is a usable grouping key. -/
def truthyTID (row : NormalizedRow) : Option String :=
  match row.TID with
  | none => none
  | some t => if t = "" then none else some t

/-- acc[tid] = { ...row, PkgRate: 0, ApprovedAmount: 0, ActualPaidAmount: 0,
QueryRaised: 0, components: [] }. -/
def seedClaim (row : NormalizedRow) : Claim :=
  { TID := row.TID, PatientName := row.PatientName,
    HospitalName := row.HospitalName, Status := row.Status,
    PkgCode := row.PkgCode, PkgName := row.PkgName,
    DateOfAdmission := row.DateOfAdmission,
    DateOfDischarge := row.DateOfDischarge,
    PaymentDate := row.PaymentDate,
    DaysToPayment := row.DaysToPayment,
    PkgRate := 0, ApprovedAmount := 0, ActualPaidAmount := 0,
    QueryRaised := 0, components := [] }

/-- The body of the reduce callback after the existence check: push the
component record, sum the three amounts, take running maxima of Query
Raised and Days to Payment. -/
def addRowToClaim (c : Claim) (row : NormalizedRow) : Claim :=
  { c with
    components := c.components ++
      [{ PkgCode := row.PkgCode, PkgName := row.PkgName,
         ComponentPkgRate := row.PkgRate,
         ComponentApprovedAmount := row.ApprovedAmount }],
    PkgRate := c.PkgRate + row.PkgRate,
    ApprovedAmount := c.ApprovedAmount + row.ApprovedAmount,
    ActualPaidAmount := c.ActualPaidAmount + row.ActualPaidAmount,
    QueryRaised := max c.QueryRaised row.QueryRaised,
    DaysToPayment := max c.DaysToPayment row.DaysToPayment }

/-- Update of the JS accumulator object at one key, modelled as an
association list of the own properties in the order they were created: an
existing key keeps its position, a new key is appended.  Keys are own
properties of a plain map; prototype-chain lookups are outside the model.
The enumeration order that Object.values applies on top of this store is
modelled separately below. -/
def updateOrInsert : List (String × Claim) → String → NormalizedRow → List (String × Claim)
  | [], t, row => [(t, addRowToClaim (seedClaim row) row)]
  | (k, c) :: rest, t, row =>
    if k = t then (k, addRowToClaim c row) :: rest
    else (k, c) :: updateOrInsert rest t row

/-- One step of the reduce in groupDataByTID. -/
def groupStep (acc : List (String × Claim)) (row : NormalizedRow) : List (String × Claim) :=
  match truthyTID row with
  | none => acc
  | some t => updateOrInsert acc t row

/-- A canonical decimal representation of a natural number: non-empty, all
digits, and no leading zero except for the single digit 0. -/
def isCanonicalNatString (k : String) : Bool :=
  match k.toList with
  | [] => false
  | c :: cs => c.isDigit && cs.all Char.isDigit && (c ≠ '0' || cs.isEmpty)

/-- ECMAScript array-index property key: the canonical decimal string of a
natural number below 2^32 - 1. -/
def isArrayIndexKey (k : String) : Bool :=
  isCanonicalNatString k && digitsToNat k.toList < 4294967295

/-- Numeric value used to order array-index keys. -/
def keyVal (k : String) : Nat := digitsToNat k.toList

/-- Insertion step of the ascending sort of array-index keyed entries. -/
def insertByKeyVal (p : String × Claim) : List (String × Claim) → List (String × Claim)
  | [] => [p]
  | q :: rest =>
    if keyVal p.1 ≤ keyVal q.1 then p :: q :: rest else q :: insertByKeyVal p rest

/-- Ascending sort of entries by the numeric value of their key.  Distinct
canonical keys have distinct values, so the order is unambiguous. -/
def sortByKeyVal (l : List (String × Claim)) : List (String × Claim) :=
  l.foldr insertByKeyVal []

/-- The ECMAScript own-property enumeration order that Object.values
follows: array-index keys first, in ascending numeric order, then the
remaining string keys in property-creation order. -/
def objectValuesOrder (acc : List (String × Claim)) : List (String × Claim) :=
  sortByKeyVal (acc.filter (fun p => isArrayIndexKey p.1))
    ++ acc.filter (fun p => !(isArrayIndexKey p.1))

/-- groupDataByTID from src/utils/dataProcessor.js: reduce into the keyed
accumulator, then Object.values, which enumerates the accumulated claims in
the ECMAScript own-property order above. -/
def groupDataByTID (data : List NormalizedRow) : List Claim :=
  (objectValuesOrder (data.foldl groupStep [])).map Prod.snd

/-- The MetricsSnapshot returned by calculateProposalMetrics.  dateRangeText
(host locale date formatting, display only) is omitted. -/
structure MetricsSnapshot where
  totalClaims : Nat
  paidClaims : Nat
  approvedClaims : Nat
  rejectedClaims : Nat
  pendingClaims : Nat
  totalClaimValue : ℚ
  totalApprovedAmount : ℚ
  totalPaidAmount : ℚ
  averageClaimAmount : ℚ
  rejectedClaimsAmount : ℚ
  approvedUnpaidAmount : ℚ
  revenueStuckInQuery : ℚ
  denialRate : ℚ
  queryIncidence : ℚ
  firstPassRate : ℚ
  collectionEfficiency : ℚ
  revenueLeakageRate : ℚ
  highValueClaimsPercentage : ℚ
  avgLengthOfStay : ℚ
  avgDaysToPayment : ℚ
  claimsWithQuery : Nat
  claimsWithoutQuery : Nat
  minDate : Option Int
  maxDate : Option Int
  denialReasons : List (String × ℚ)
  healthScore : ℚ
  monthsSpan : ℤ
deriving DecidableEq

/-- Basic statistics and KPI lines of calculateProposalMetrics, one
definition per const statement of the source, parameterised over the
preprocessed rows (row granularity) and the grouped claims (claim
granularity). -/
def totalClaimsOf (groupedData : List Claim) : Nat := groupedData.length

/-- totalClaimValue: claim-level sum of Pkg Rate. -/
def totalClaimValueOf (groupedData : List Claim) : ℚ :=
  groupedData.foldl (fun sum row => sum + row.PkgRate) 0

/-- totalApprovedAmount: claim-level sum of Approved Amount. -/
def totalApprovedAmountOf (groupedData : List Claim) : ℚ :=
  groupedData.foldl (fun sum row => sum + row.ApprovedAmount) 0

/-- totalPaidAmount: row-level sum of Approved Amount over rows whose Status
contains the substring Claim Paid. -/
def totalPaidAmountOf (processedData : List NormalizedRow) : ℚ :=
  (processedData.filter (fun row => statusIncludes row.Status "Claim Paid")).foldl
    (fun sum row => sum + row.ApprovedAmount) 0

/-- paidClaims: claim-level count of the Claim Paid substring match. -/
def paidClaimsOf (groupedData : List Claim) : Nat :=
  (groupedData.filter (fun row => statusIncludes row.Status "Claim Paid")).length

/-- rejectedClaims: claim-level count of the two exact rejected statuses. -/
def rejectedClaimsOf (groupedData : List Claim) : Nat :=
  (groupedData.filter (fun row =>
    statusIsEither row.Status "Claim Rejected (Supervisor)" "Claim Rejected (Analyser)")).length

/-- pendingClaims: claim-level count of the Pending substring match. -/
def pendingClaimsOf (groupedData : List Claim) : Nat :=
  (groupedData.filter (fun row => statusIncludes row.Status "Pending")).length

/-- approvedClaims: claim-level count of the Approved substring match. -/
def approvedClaimsOf (groupedData : List Claim) : Nat :=
  (groupedData.filter (fun row => statusIncludes row.Status "Approved")).length

/-- claimsWithQuery: claims whose Query Raised is positive. -/
def claimsWithQueryOf (groupedData : List Claim) : Nat :=
  (groupedData.filter (fun row => decide (row.QueryRaised > 0))).length

/-- claimsWithoutQuery: claims whose Query Raised equals 0. -/
def claimsWithoutQueryOf (groupedData : List Claim) : Nat :=
  (groupedData.filter (fun row => decide (row.QueryRaised = 0))).length

/-- denialRate, zero-guarded on totalClaims. -/
def denialRateOf (groupedData : List Claim) : ℚ :=
  if totalClaimsOf groupedData > 0 then
    ((rejectedClaimsOf groupedData : ℚ) / (totalClaimsOf groupedData : ℚ)) * 100
  else 0

/-- queryIncidence, zero-guarded on totalClaims. -/
def queryIncidenceOf (groupedData : List Claim) : ℚ :=
  if totalClaimsOf groupedData > 0 then
    ((claimsWithQueryOf groupedData : ℚ) / (totalClaimsOf groupedData : ℚ)) * 100
  else 0

/-- firstPassRate, zero-guarded on totalClaims. -/
def firstPassRateOf (groupedData : List Claim) : ℚ :=
  if totalClaimsOf groupedData > 0 then
    ((claimsWithoutQueryOf groupedData : ℚ) / (totalClaimsOf groupedData : ℚ)) * 100
  else 0

/-- collectionEfficiency, zero-guarded on totalApprovedAmount. -/
def collectionEfficiencyOf (processedData : List NormalizedRow) (groupedData : List Claim) : ℚ :=
  if totalApprovedAmountOf groupedData > 0 then
    (totalPaidAmountOf processedData / totalApprovedAmountOf groupedData) * 100
  else 0

/-- rejectedClaimsAmount: row-level sum of Pkg Rate over the two exact
rejected statuses. -/
def rejectedClaimsAmountOf (processedData : List NormalizedRow) : ℚ :=
  (processedData.filter (fun row =>
    statusIsEither row.Status "Claim Rejected (Supervisor)" "Claim Rejected (Analyser)")).foldl
    (fun sum row => sum + row.PkgRate) 0

/-- revenueLeakageRate, zero-guarded on totalClaimValue. -/
def revenueLeakageRateOf (processedData : List NormalizedRow) (groupedData : List Claim) : ℚ :=
  if totalClaimValueOf groupedData > 0 then
    (rejectedClaimsAmountOf processedData / totalClaimValueOf groupedData) * 100
  else 0

/-- approvedUnpaidAmount: row-level sum of Approved Amount over rows whose
lower-cased Status contains both approved and supervisor. -/
def approvedUnpaidAmountOf (processedData : List NormalizedRow) : ℚ :=
  (processedData.filter (fun row =>
    statusLowerIncludes row.Status "approved" && statusLowerIncludes row.Status "supervisor")).foldl
    (fun sum row => sum + row.ApprovedAmount) 0

/-- revenueStuckInQuery: row-level sum of Pkg Rate over rows whose
lower-cased Status contains claim query. -/
def revenueStuckInQueryOf (processedData : List NormalizedRow) : ℚ :=
  (processedData.filter (fun row => statusLowerIncludes row.Status "claim query")).foldl
    (fun sum row => sum + row.PkgRate) 0

/-- averageClaimAmount: Math.round of totalClaimValue/totalClaims, 0 when no
claims. -/
def averageClaimAmountOf (groupedData : List Claim) : ℚ :=
  if totalClaimsOf groupedData > 0 then
    ((round (totalClaimValueOf groupedData / (totalClaimsOf groupedData : ℚ)) : ℤ) : ℚ)
  else 0

/-- Claims with both admission and discharge dates. -/
def claimsWithDatesOf (groupedData : List Claim) : List Claim :=
  groupedData.filter (fun row => row.DateOfAdmission.isSome && row.DateOfDischarge.isSome)

/-- avgLengthOfStay: mean of max(0, floor((discharge - admission)/day)) over
claims with both dates, defaulting to 4. -/
def avgLengthOfStayOf (groupedData : List Claim) : ℚ :=
  let claimsWithDates := claimsWithDatesOf groupedData
  if claimsWithDates.length > 0 then
    (claimsWithDates.foldl (fun sum row =>
      match row.DateOfAdmission, row.DateOfDischarge with
      | some adm, some dis => sum + ((max 0 ⌊(((dis - adm : ℤ) : ℚ)) / msPerDay⌋ : ℤ) : ℚ)
      | _, _ => sum) 0) / (claimsWithDates.length : ℚ)
  else 4

/-- Claims whose derived Days to Payment is truthy and positive. -/
def claimsWithPaymentDaysOf (groupedData : List Claim) : List Claim :=
  groupedData.filter (fun row =>
    decide (row.DaysToPayment ≠ 0) && decide (row.DaysToPayment > 0))

/-- avgDaysToPayment: mean of Days to Payment over qualifying claims, else
avgLengthOfStay || 45. -/
def avgDaysToPaymentOf (groupedData : List Claim) : ℚ :=
  let claimsWithPaymentDays := claimsWithPaymentDaysOf groupedData
  if claimsWithPaymentDays.length > 0 then
    (claimsWithPaymentDays.foldl (fun sum row => sum + row.DaysToPayment) 0)
      / (claimsWithPaymentDays.length : ℚ)
  else if avgLengthOfStayOf groupedData ≠ 0 then avgLengthOfStayOf groupedData else 45

/-- Admission dates present on the processed rows. -/
def admissionDatesOf (processedData : List NormalizedRow) : List Int :=
  processedData.filterMap (fun row => row.DateOfAdmission)

/-- minDate: reduce with min over admissionDates, none when empty. -/
def minDateOf (processedData : List NormalizedRow) : Option Int :=
  match admissionDatesOf processedData with
  | [] => none
  | d :: _ => some ((admissionDatesOf processedData).foldl
      (fun mn date => if date < mn then date else mn) d)

/-- maxDate: reduce with max over admissionDates, none when empty. -/
def maxDateOf (processedData : List NormalizedRow) : Option Int :=
  match admissionDatesOf processedData with
  | [] => none
  | d :: _ => some ((admissionDatesOf processedData).foldl
      (fun mx date => if date > mx then date else mx) d)

/-- monthsSpan: max(1, ceil((maxDate - minDate)/30 days)), default 12. -/
def monthsSpanOf (processedData : List NormalizedRow) : ℤ :=
  match minDateOf processedData, maxDateOf processedData with
  | some mn, some mx => max 1 ⌈(((mx - mn : ℤ) : ℚ)) / (msPerDay * 30)⌉
  | _, _ => 12

/-- highValueClaims: claims with Pkg Rate above one lakh. -/
def highValueClaimsOf (groupedData : List Claim) : Nat :=
  (groupedData.filter (fun row => decide (row.PkgRate > 100000))).length

/-- highValueClaimsPercentage, zero-guarded on totalClaims. -/
def highValueClaimsPercentageOf (groupedData : List Claim) : ℚ :=
  if totalClaimsOf groupedData > 0 then
    ((highValueClaimsOf groupedData : ℚ) / (totalClaimsOf groupedData : ℚ)) * 100
  else 0

/-- healthScore: min(90, weighted blend of the three KPI lines). -/
def healthScoreOf (processedData : List NormalizedRow) (groupedData : List Claim) : ℚ :=
  min 90 ((100 - denialRateOf groupedData) * 0.4
    + collectionEfficiencyOf processedData groupedData * 0.4
    + (100 - queryIncidenceOf groupedData) * 0.2)

/-- The fixed illustrative denial-reason list of the source. -/
def denialReasonsList : List (String × ℚ) :=
  [("Missing or incorrect documentation", 35),
   ("Authorization issues", 25),
   ("Coding errors", 20),
   ("Eligibility verification failures", 12),
   ("Timely filing issues", 8)]

/-- calculateProposalMetrics from src/utils/dataProcessor.js: preprocess,
group, then assemble the snapshot from the per-statement definitions
above. -/
def calculateProposalMetrics (data : List RawRow) : MetricsSnapshot :=
  let processedData := preprocessMAAClaims data
  let groupedData := groupDataByTID processedData
  { totalClaims := totalClaimsOf groupedData,
    paidClaims := paidClaimsOf groupedData,
    approvedClaims := approvedClaimsOf groupedData,
    rejectedClaims := rejectedClaimsOf groupedData,
    pendingClaims := pendingClaimsOf groupedData,
    totalClaimValue := totalClaimValueOf groupedData,
    totalApprovedAmount := totalApprovedAmountOf groupedData,
    totalPaidAmount := totalPaidAmountOf processedData,
    averageClaimAmount := averageClaimAmountOf groupedData,
    rejectedClaimsAmount := rejectedClaimsAmountOf processedData,
    approvedUnpaidAmount := approvedUnpaidAmountOf processedData,
    revenueStuckInQuery := revenueStuckInQueryOf processedData,
    denialRate := denialRateOf groupedData,
    queryIncidence := queryIncidenceOf groupedData,
    firstPassRate := firstPassRateOf groupedData,
    collectionEfficiency := collectionEfficiencyOf processedData groupedData,
    revenueLeakageRate := revenueLeakageRateOf processedData groupedData,
    highValueClaimsPercentage := highValueClaimsPercentageOf groupedData,
    avgLengthOfStay := avgLengthOfStayOf groupedData,
    avgDaysToPayment := avgDaysToPaymentOf groupedData,
    claimsWithQuery := claimsWithQueryOf groupedData,
    claimsWithoutQuery := claimsWithoutQueryOf groupedData,
    minDate := minDateOf processedData,
    maxDate := maxDateOf processedData,
    denialReasons := denialReasonsList,
    healthScore := healthScoreOf processedData groupedData,
    monthsSpan := monthsSpanOf processedData }

/-- The ROIProjection returned by calculateROIProjections. -/
structure ROIProjection where
  denialPreventionConservative : ℚ
  denialPreventionExpected : ℚ
  denialPreventionOptimistic : ℚ
  collectionsConservative : ℚ
  collectionsExpected : ℚ
  collectionsOptimistic : ℚ
  efficiencyConservative : ℚ
  efficiencyExpected : ℚ
  efficiencyOptimistic : ℚ
  totalBenefitConservative : ℚ
  totalBenefitExpected : ℚ
  totalBenefitOptimistic : ℚ
  paybackPeriod : ℤ
  roiMultiple : ℚ
deriving DecidableEq

/-- safeClaimValue: totalClaimValue || 5000000.  The JS x || d defaults fire
exactly when x is 0 here (the metric fields are never NaN in this model). -/
def safeClaimValueOf (metrics : MetricsSnapshot) : ℚ :=
  if metrics.totalClaimValue = 0 then 5000000 else metrics.totalClaimValue

/-- safeRejectedAmount: rejectedClaimsAmount || 15 percent of safeClaimValue. -/
def safeRejectedAmountOf (metrics : MetricsSnapshot) : ℚ :=
  if metrics.rejectedClaimsAmount = 0 then safeClaimValueOf metrics * 0.15
  else metrics.rejectedClaimsAmount

/-- safeDenialRate: denialRate || 15. -/
def safeDenialRateOf (metrics : MetricsSnapshot) : ℚ :=
  if metrics.denialRate = 0 then 15 else metrics.denialRate

/-- safeAvgDays: avgDaysToPayment || 45. -/
def safeAvgDaysOf (metrics : MetricsSnapshot) : ℚ :=
  if metrics.avgDaysToPayment = 0 then 45 else metrics.avgDaysToPayment

/-- potentialRecovery against the 5 percent target denial rate. -/
def potentialRecoveryOf (metrics : MetricsSnapshot) : ℚ :=
  if safeDenialRateOf metrics > 5 then
    safeRejectedAmountOf metrics * ((safeDenialRateOf metrics - 5) / safeDenialRateOf metrics)
  else safeRejectedAmountOf metrics * 0.5

/-- workingCapitalBenefit: 12 percent cost of capital on days saved versus a
30-day target. -/
def workingCapitalBenefitOf (metrics : MetricsSnapshot) : ℚ :=
  safeClaimValueOf metrics * (max 0 (safeAvgDaysOf metrics - 30) / 365) * 0.12

/-- processEfficiencySavings: 2 percent of claim value. -/
def processEfficiencySavingsOf (metrics : MetricsSnapshot) : ℚ :=
  safeClaimValueOf metrics * 0.02

/-- expectedTotal: the expected-scenario weighted sum of the three streams. -/
def expectedTotalOf (metrics : MetricsSnapshot) : ℚ :=
  potentialRecoveryOf metrics * 0.8 + workingCapitalBenefitOf metrics * 0.7
    + processEfficiencySavingsOf metrics * 0.7

/-- calculateROIProjections from src/utils/dataProcessor.js. -/
def calculateROIProjections (metrics : MetricsSnapshot) : ROIProjection :=
  let potentialRecovery := potentialRecoveryOf metrics
  let workingCapitalBenefit := workingCapitalBenefitOf metrics
  let processEfficiencySavings := processEfficiencySavingsOf metrics
  let conservativeRecovery := potentialRecovery * 0.6
  let expectedRecovery := potentialRecovery * 0.8
  let optimisticRecovery := potentialRecovery
  let conservativeTotal :=
    conservativeRecovery + workingCapitalBenefit * 0.5 + processEfficiencySavings * 0.5
  let expectedTotal := expectedTotalOf metrics
  let optimisticTotal := optimisticRecovery + workingCapitalBenefit + processEfficiencySavings
  let roiMultiple : ℚ := 3.5
  let investmentAmount := expectedTotal / roiMultiple
  let monthlyBenefit := expectedTotal / 12
  let paybackMonths : ℤ := ⌈investmentAmount / monthlyBenefit⌉
  { denialPreventionConservative := conservativeRecovery,
    denialPreventionExpected := expectedRecovery,
    denialPreventionOptimistic := optimisticRecovery,
    collectionsConservative := workingCapitalBenefit * 0.5,
    collectionsExpected := workingCapitalBenefit * 0.7,
    collectionsOptimistic := workingCapitalBenefit,
    efficiencyConservative := processEfficiencySavings * 0.5,
    efficiencyExpected := processEfficiencySavings * 0.7,
    efficiencyOptimistic := processEfficiencySavings,
    totalBenefitConservative := conservativeTotal,
    totalBenefitExpected := expectedTotal,
    totalBenefitOptimistic := optimisticTotal,
    paybackPeriod := paybackMonths,
    roiMultiple := roiMultiple }

/-- Spec-side comparator for C1: the distinct truthy TIDs of the input in
the order each first appears. -/
def insertFirstSeen (acc : List String) (t : String) : List String :=
  if t ∈ acc then acc else acc ++ [t]

/-- First-seen-order deduplication of a TID sequence. -/
def firstSeenTIDs (ts : List String) : List String :=
  ts.foldl insertFirstSeen []

/-- Insertion step of the ascending key sort, on bare keys. -/
def insertKeyStr (t : String) : List String → List String
  | [] => [t]
  | u :: rest => if keyVal t ≤ keyVal u then t :: u :: rest else u :: insertKeyStr t rest

/-- Ascending numeric sort of bare keys. -/
def sortKeysAscending (ts : List String) : List String :=
  ts.foldr insertKeyStr []

/-- Spec-side comparator for the amended C1: the ECMAScript own-property
enumeration order of a key list, array-index keys first in ascending
numeric order, then the remaining keys in the order given. -/
def jsPropertyOrder (ts : List String) : List String :=
  sortKeysAscending (ts.filter isArrayIndexKey)
    ++ ts.filter (fun t => !(isArrayIndexKey t))

/-- Spec-side comparator for C6: the row-granularity paid sum, written from
the spec words: sum of Approved Amount over normalized rows whose Status
contains Claim Paid. -/
def rowLevelPaidSum (data : List RawRow) : ℚ :=
  (((preprocessMAAClaims data).filter
    (fun row => statusIncludes row.Status "Claim Paid")).map
    NormalizedRow.ApprovedAmount).sum

/-- The claim-granularity paid sum C6 distinguishes totalPaidAmount from:
the sum of the Actual Paid Amount accumulators of the produced Claims. -/
def claimLevelPaidSum (data : List RawRow) : ℚ :=
  ((groupDataByTID (preprocessMAAClaims data)).map Claim.ActualPaidAmount).sum

/-- Spec-side comparator for C8 (amended): Days to Payment is the parsed
explicit field when that field is present with a non-empty value, else the
clamped floored day difference when both dates parsed, else 0. -/
def daysToPaymentSpec (row : RawRow) : ℚ :=
  if truthyStr row.DaysToPayment then parseNumberOpt row.DaysToPayment
  else
    match row.DateOfDischarge, row.PaymentDate with
    | some d, some p => ((max 0 ⌊(((p - d : ℤ) : ℚ)) / msPerDay⌋ : ℤ) : ℚ)
    | _, _ => 0

/-- Spec-side comparator for C8: Actual Paid Amount is the parsed Approved
Amount when Status contains the case-sensitive substring Claim Paid,
else 0. -/
def actualPaidSpec (row : RawRow) : ℚ :=
  match row.Status with
  | none => 0
  | some s => if includesStr s "Claim Paid" then parseNumberOpt row.ApprovedAmount else 0

/-- Example input: one fully paid claim with no queries (spec section 8). -/
def exPaidRows : List RawRow :=
  [{ rawRowNone with
       TID := some "1", PatientName := some "A", HospitalName := some "H",
       Status := some "Claim Paid",
       PkgRate := some "1,00,000", ApprovedAmount := some "1,00,000" }]

/-- Example input: a row with a TID followed by a paid row without one. -/
def exNoTidRows : List RawRow :=
  [{ rawRowNone with
       TID := some "1", Status := some "Claim Paid",
       PkgRate := some "100", ApprovedAmount := some "100" },
   { rawRowNone with
       Status := some "Claim Paid",
       PkgRate := some "50", ApprovedAmount := some "50" }]

/-- Example normalized row with TID 5, rate 10000. -/
def exNRow5a : NormalizedRow :=
  { TID := some "5", PatientName := none, HospitalName := none, Status := none,
    PkgCode := none, PkgName := none, PkgRate := 10000, ApprovedAmount := 10000,
    QueryRaised := 0, DateOfAdmission := none, DateOfDischarge := none,
    PaymentDate := none, DaysToPayment := 0, ActualPaidAmount := 0 }

/-- Example normalized row with TID 5, rate 20000. -/
def exNRow5b : NormalizedRow := { exNRow5a with PkgRate := 20000 }

/-- Example normalized row with TID 1, used after a TID 5 row to exercise
the numeric enumeration order of integer-like keys. -/
def exNRow1 : NormalizedRow := { exNRow5a with TID := some "1" }

/-- The single claim produced by grouping the two TID-5 rows. -/
def exClaim5 : Claim :=
  addRowToClaim (addRowToClaim (seedClaim exNRow5a) exNRow5a) exNRow5b

/-- Example raw row that has every required column except TID. -/
def exRowNoTID : RawRow :=
  { rawRowNone with
      PatientName := some "A", HospitalName := some "H", Status := some "Claim Paid",
      PkgRate := some "100", ApprovedAmount := some "100" }

/-- Example raw row whose Days to Payment field is present but empty while
both payment-side dates parse, five days apart. -/
def exRowEmptyDays : RawRow :=
  { rawRowNone with
      DaysToPayment := some "", DateOfDischarge := some 0,
      PaymentDate := some 432000000 }

/- Core marks the rational arithmetic operations irreducible, which blocks
the elaborator whnf check of the decide tactic on concrete inputs; restore
the ordinary reducibility so that concrete runs of the pipeline evaluate. -/
set_option allowUnsafeReducibility true in
attribute [semireducible] Rat.mul Rat.add Rat.inv Rat.div Rat.sub Rat.neg Rat.blt
  Rat.ofScientific

theorem foldl_add_eq_sum_map {α : Type} (f : α → ℚ) :
    ∀ (l : List α) (a : ℚ), l.foldl (fun s x => s + f x) a = a + (l.map f).sum := by
  intro l
  induction l with
  | nil => intro a; simp
  | cons x xs ih =>
    intro a
    simp only [List.foldl_cons, List.map_cons, List.sum_cons, ih]
    ring

theorem addRowToClaim_TID (c : Claim) (row : NormalizedRow) :
    (addRowToClaim c row).TID = c.TID := rfl

theorem seedClaim_TID (row : NormalizedRow) : (seedClaim row).TID = row.TID := rfl

theorem truthyTID_eq_some {row : NormalizedRow} {t : String}
    (h : truthyTID row = some t) : row.TID = some t := by
  unfold truthyTID at h
  cases hr : row.TID with
  | none => rw [hr] at h; exact absurd h (by simp)
  | some s =>
    rw [hr] at h
    by_cases hs : s = ""
    · simp [hs] at h
    · simp [hs] at h
      rw [h]

theorem map_fst_updateOrInsert (acc : List (String × Claim)) (t : String) (row : NormalizedRow) :
    (updateOrInsert acc t row).map Prod.fst = insertFirstSeen (acc.map Prod.fst) t := by
  induction acc with
  | nil => simp [updateOrInsert, insertFirstSeen]
  | cons q rest ih =>
    obtain ⟨k, c⟩ := q
    by_cases hk : k = t
    · subst hk
      simp [updateOrInsert, insertFirstSeen]
    · have hne : t ≠ k := fun h => hk h.symm
      simp only [updateOrInsert, if_neg hk, List.map_cons, ih, insertFirstSeen,
        List.mem_cons, hne, false_or]
      by_cases ht : t ∈ rest.map Prod.fst
      · simp [ht]
      · simp [ht]

theorem foldl_groupStep_map_fst (rows : List NormalizedRow) :
    ∀ acc : List (String × Claim),
      ((rows.foldl groupStep acc).map Prod.fst)
        = (rows.filterMap truthyTID).foldl insertFirstSeen (acc.map Prod.fst) := by
  induction rows with
  | nil => intro acc; simp
  | cons r rows ih =>
    intro acc
    simp only [List.foldl_cons, List.filterMap_cons]
    cases h : truthyTID r with
    | none => simp only [groupStep, h]; exact ih acc
    | some t =>
      simp only [groupStep, h, List.foldl_cons]
      rw [ih (updateOrInsert acc t r), map_fst_updateOrInsert]

theorem updateOrInsert_TID_eq (acc : List (String × Claim)) (t : String) (row : NormalizedRow)
    (hacc : ∀ p ∈ acc, p.2.TID = some p.1) (hrow : row.TID = some t) :
    ∀ p ∈ updateOrInsert acc t row, p.2.TID = some p.1 := by
  induction acc with
  | nil =>
    intro p hp
    simp only [updateOrInsert, List.mem_singleton] at hp
    subst hp
    show (addRowToClaim (seedClaim row) row).TID = some t
    rw [addRowToClaim_TID, seedClaim_TID, hrow]
  | cons q rest ih =>
    obtain ⟨k, c⟩ := q
    intro p hp
    by_cases hk : k = t
    · subst hk
      rw [show updateOrInsert ((k, c) :: rest) k row = (k, addRowToClaim c row) :: rest from by
        simp [updateOrInsert], List.mem_cons] at hp
      cases hp with
      | inl h =>
        rw [h]
        show (addRowToClaim c row).TID = some k
        rw [addRowToClaim_TID]
        exact hacc (k, c) (List.mem_cons_self _ _)
      | inr h => exact hacc p (List.mem_cons_of_mem _ h)
    · rw [show updateOrInsert ((k, c) :: rest) t row = (k, c) :: updateOrInsert rest t row from by
        simp [updateOrInsert, hk], List.mem_cons] at hp
      cases hp with
      | inl h =>
        rw [h]
        exact hacc (k, c) (List.mem_cons_self _ _)
      | inr h => exact ih (fun q hq => hacc q (List.mem_cons_of_mem _ hq)) p h

theorem foldl_groupStep_TID_eq (rows : List NormalizedRow) :
    ∀ acc : List (String × Claim), (∀ p ∈ acc, p.2.TID = some p.1) →
      ∀ p ∈ rows.foldl groupStep acc, p.2.TID = some p.1 := by
  induction rows with
  | nil => intro acc hacc; exact hacc
  | cons r rows ih =>
    intro acc hacc
    simp only [List.foldl_cons]
    cases h : truthyTID r with
    | none => simp only [groupStep, h]; exact ih acc hacc
    | some t =>
      simp only [groupStep, h]
      exact ih _ (updateOrInsert_TID_eq acc t r hacc (truthyTID_eq_some h))

theorem foldl_groupStep_filter (rows : List NormalizedRow) :
    ∀ acc : List (String × Claim),
      rows.foldl groupStep acc
        = (rows.filter (fun r => (truthyTID r).isSome)).foldl groupStep acc := by
  induction rows with
  | nil => intro acc; rfl
  | cons r rows ih =>
    intro acc
    simp only [List.foldl_cons, List.filter_cons]
    cases h : truthyTID r with
    | none => simp only [groupStep, h, Option.isSome_none, Bool.false_eq_true, if_false]; exact ih acc
    | some t =>
      simp only [h, Option.isSome_some, if_true, List.foldl_cons, groupStep]
      exact ih _

theorem addRowToClaim_pkgRate_inv (c : Claim) (row : NormalizedRow)
    (h : c.PkgRate = (c.components.map ComponentRecord.ComponentPkgRate).sum) :
    (addRowToClaim c row).PkgRate
      = ((addRowToClaim c row).components.map ComponentRecord.ComponentPkgRate).sum := by
  show c.PkgRate + row.PkgRate = _
  rw [show (addRowToClaim c row).components
      = c.components ++
        [{ PkgCode := row.PkgCode, PkgName := row.PkgName,
           ComponentPkgRate := row.PkgRate,
           ComponentApprovedAmount := row.ApprovedAmount }] from rfl]
  rw [List.map_append, List.sum_append, h]
  simp

theorem updateOrInsert_pkgRate_inv (acc : List (String × Claim)) (t : String)
    (row : NormalizedRow)
    (hacc : ∀ p ∈ acc, p.2.PkgRate = (p.2.components.map ComponentRecord.ComponentPkgRate).sum) :
    ∀ p ∈ updateOrInsert acc t row,
      p.2.PkgRate = (p.2.components.map ComponentRecord.ComponentPkgRate).sum := by
  induction acc with
  | nil =>
    intro p hp
    simp only [updateOrInsert, List.mem_singleton] at hp
    subst hp
    exact addRowToClaim_pkgRate_inv (seedClaim row) row rfl
  | cons q rest ih =>
    obtain ⟨k, c⟩ := q
    intro p hp
    by_cases hk : k = t
    · subst hk
      rw [show updateOrInsert ((k, c) :: rest) k row = (k, addRowToClaim c row) :: rest from by
        simp [updateOrInsert], List.mem_cons] at hp
      cases hp with
      | inl h =>
        rw [h]
        exact addRowToClaim_pkgRate_inv c row (hacc (k, c) (List.mem_cons_self _ _))
      | inr h => exact hacc p (List.mem_cons_of_mem _ h)
    · rw [show updateOrInsert ((k, c) :: rest) t row = (k, c) :: updateOrInsert rest t row from by
        simp [updateOrInsert, hk], List.mem_cons] at hp
      cases hp with
      | inl h =>
        rw [h]
        exact hacc (k, c) (List.mem_cons_self _ _)
      | inr h => exact ih (fun q hq => hacc q (List.mem_cons_of_mem _ hq)) p h

theorem foldl_groupStep_pkgRate_inv (rows : List NormalizedRow) :
    ∀ acc : List (String × Claim),
      (∀ p ∈ acc, p.2.PkgRate = (p.2.components.map ComponentRecord.ComponentPkgRate).sum) →
      ∀ p ∈ rows.foldl groupStep acc,
        p.2.PkgRate = (p.2.components.map ComponentRecord.ComponentPkgRate).sum := by
  induction rows with
  | nil => intro acc hacc; exact hacc
  | cons r rows ih =>
    intro acc hacc
    simp only [List.foldl_cons]
    cases h : truthyTID r with
    | none => simp only [groupStep, h]; exact ih acc hacc
    | some t =>
      simp only [groupStep, h]
      exact ih _ (updateOrInsert_pkgRate_inv acc t r hacc)

theorem mem_insertByKeyVal {p q : String × Claim} {l : List (String × Claim)}
    (h : p ∈ insertByKeyVal q l) : p = q ∨ p ∈ l := by
  induction l with
  | nil =>
    rw [show insertByKeyVal q [] = [q] from rfl] at h
    exact Or.inl (List.mem_singleton.mp h)
  | cons r rest ih =>
    by_cases hc : keyVal q.1 ≤ keyVal r.1
    · rw [show insertByKeyVal q (r :: rest) = q :: r :: rest from by
        simp [insertByKeyVal, hc]] at h
      exact List.mem_cons.mp h
    · rw [show insertByKeyVal q (r :: rest) = r :: insertByKeyVal q rest from by
        simp [insertByKeyVal, hc]] at h
      rcases List.mem_cons.mp h with h1 | h1
      · exact Or.inr (h1 ▸ List.mem_cons_self _ _)
      · rcases ih h1 with h2 | h2
        · exact Or.inl h2
        · exact Or.inr (List.mem_cons_of_mem _ h2)

theorem mem_sortByKeyVal {p : String × Claim} {l : List (String × Claim)}
    (h : p ∈ sortByKeyVal l) : p ∈ l := by
  induction l with
  | nil => exact absurd h (by simp [sortByKeyVal])
  | cons q rest ih =>
    rw [show sortByKeyVal (q :: rest) = insertByKeyVal q (sortByKeyVal rest) from rfl] at h
    rcases mem_insertByKeyVal h with h1 | h1
    · exact h1 ▸ List.mem_cons_self _ _
    · exact List.mem_cons_of_mem _ (ih h1)

theorem mem_objectValuesOrder {p : String × Claim} {acc : List (String × Claim)}
    (h : p ∈ objectValuesOrder acc) : p ∈ acc := by
  unfold objectValuesOrder at h
  rcases List.mem_append.mp h with h1 | h1
  · exact List.mem_of_mem_filter (mem_sortByKeyVal h1)
  · exact List.mem_of_mem_filter h1

theorem map_fst_insertByKeyVal (p : String × Claim) (l : List (String × Claim)) :
    (insertByKeyVal p l).map Prod.fst = insertKeyStr p.1 (l.map Prod.fst) := by
  induction l with
  | nil => rfl
  | cons q rest ih =>
    by_cases hc : keyVal p.1 ≤ keyVal q.1
    · simp [insertByKeyVal, insertKeyStr, hc]
    · simp [insertByKeyVal, insertKeyStr, hc, ih]

theorem map_fst_sortByKeyVal (l : List (String × Claim)) :
    (sortByKeyVal l).map Prod.fst = sortKeysAscending (l.map Prod.fst) := by
  induction l with
  | nil => rfl
  | cons q rest ih =>
    show (insertByKeyVal q (sortByKeyVal rest)).map Prod.fst
      = insertKeyStr q.1 (sortKeysAscending (rest.map Prod.fst))
    rw [map_fst_insertByKeyVal, ih]

theorem map_fst_filter_key (pred : String → Bool) (l : List (String × Claim)) :
    (l.filter (fun p => pred p.1)).map Prod.fst = (l.map Prod.fst).filter pred := by
  induction l with
  | nil => rfl
  | cons q rest ih =>
    by_cases hc : pred q.1
    · simp [List.filter_cons, hc, ih]
    · simp [List.filter_cons, hc, ih]

theorem map_fst_objectValuesOrder (acc : List (String × Claim)) :
    (objectValuesOrder acc).map Prod.fst = jsPropertyOrder (acc.map Prod.fst) := by
  unfold objectValuesOrder jsPropertyOrder
  rw [List.map_append, map_fst_sortByKeyVal, map_fst_filter_key isArrayIndexKey,
    map_fst_filter_key (fun t => !(isArrayIndexKey t))]

/-- Counterexample to C1 as stated: with truthy TIDs "5" then "1",
Object.values enumerates the integer-like keys in ascending numeric order,
so the aggregator returns the claims as TID 1 then TID 5, not in the
first-seen order 5 then 1 that the claim asserts for every input. -/
theorem C1_counterexample :
    (groupDataByTID [exNRow5a, exNRow1]).map Claim.TID = [some "1", some "5"]
      ∧ firstSeenTIDs ([exNRow5a, exNRow1].filterMap truthyTID) = ["5", "1"]
      ∧ (groupDataByTID [exNRow5a, exNRow1]).map Claim.TID
          ≠ (firstSeenTIDs ([exNRow5a, exNRow1].filterMap truthyTID)).map some :=
  ⟨by decide, by decide, by decide⟩

/-- C1 amended: the aggregator returns exactly one Claim per distinct truthy
TID; their TID fields enumerate the distinct non-empty TIDs in ECMAScript
own-property order — TIDs that are canonical array-index strings first, in
ascending numeric order, then the remaining TIDs in the order each first
appears in the input.  Rows whose TID is absent or empty are dropped
without contributing to any Claim, and the function is total, so no input
raises an error. -/
theorem C1_groupDataByTID_one_claim_per_tid_js_order (rows : List NormalizedRow) :
    (groupDataByTID rows).map Claim.TID
        = (jsPropertyOrder (firstSeenTIDs (rows.filterMap truthyTID))).map some
      ∧ groupDataByTID rows
        = groupDataByTID (rows.filter (fun r => (truthyTID r).isSome)) := by
  constructor
  · have h2 := foldl_groupStep_TID_eq rows [] (by intro p hp; cases hp)
    have h1 := foldl_groupStep_map_fst rows []
    calc (groupDataByTID rows).map Claim.TID
        = (objectValuesOrder (rows.foldl groupStep [])).map (fun p => p.2.TID) := by
          unfold groupDataByTID; rw [List.map_map]; rfl
      _ = (objectValuesOrder (rows.foldl groupStep [])).map (fun p => some p.1) :=
          List.map_congr_left (fun p hp => h2 p (mem_objectValuesOrder hp))
      _ = ((objectValuesOrder (rows.foldl groupStep [])).map Prod.fst).map some := by
          rw [List.map_map]; rfl
      _ = (jsPropertyOrder ((rows.foldl groupStep []).map Prod.fst)).map some := by
          rw [map_fst_objectValuesOrder]
      _ = (jsPropertyOrder (firstSeenTIDs (rows.filterMap truthyTID))).map some := by
          rw [h1]; rfl
  · unfold groupDataByTID
    rw [foldl_groupStep_filter rows []]

/-- C2: every Claim produced by the aggregator has summed Pkg Rate equal to
the sum of the Component Pkg Rate values of its components list; the
equality is exact in the rational model, hence within the stated relative
tolerance of 1e-6. -/
theorem C2_claim_pkgRate_eq_component_sum (rows : List NormalizedRow) (c : Claim)
    (hc : c ∈ groupDataByTID rows) :
    c.PkgRate = (c.components.map ComponentRecord.ComponentPkgRate).sum := by
  unfold groupDataByTID at hc
  rcases List.mem_map.mp hc with ⟨p, hp, rfl⟩
  exact foldl_groupStep_pkgRate_inv rows [] (by intro q hq; cases hq) p
    (mem_objectValuesOrder hp)

/-- Witness for C2 at the two-row TID-5 input of spec section 8. -/
theorem C2_witness :
    exClaim5.PkgRate = (exClaim5.components.map ComponentRecord.ComponentPkgRate).sum :=
  C2_claim_pkgRate_eq_component_sum [exNRow5a, exNRow5b] exClaim5 (by decide)

/-- C3: the metric formulas are total functions of the input in this model
(every division sits under its zero guard), and with zero claims all seven
rate, percentage and average metrics are exactly 0. -/
theorem C3_zero_claims_all_rates_zero (data : List RawRow)
    (h : (calculateProposalMetrics data).totalClaims = 0) :
    (calculateProposalMetrics data).denialRate = 0
      ∧ (calculateProposalMetrics data).queryIncidence = 0
      ∧ (calculateProposalMetrics data).firstPassRate = 0
      ∧ (calculateProposalMetrics data).collectionEfficiency = 0
      ∧ (calculateProposalMetrics data).revenueLeakageRate = 0
      ∧ (calculateProposalMetrics data).highValueClaimsPercentage = 0
      ∧ (calculateProposalMetrics data).averageClaimAmount = 0 := by
  have hg : groupDataByTID (preprocessMAAClaims data) = [] :=
    List.length_eq_zero.mp h
  refine ⟨?_, ?_, ?_, ?_, ?_, ?_, ?_⟩ <;>
    simp [calculateProposalMetrics, denialRateOf, queryIncidenceOf, firstPassRateOf,
      collectionEfficiencyOf, revenueLeakageRateOf, highValueClaimsPercentageOf,
      averageClaimAmountOf, totalClaimsOf, totalApprovedAmountOf, totalClaimValueOf, hg]

/-- Witness for C3 at the empty input. -/
theorem C3_witness :
    (calculateProposalMetrics []).totalClaims = 0
      ∧ ((calculateProposalMetrics []).denialRate = 0
        ∧ (calculateProposalMetrics []).queryIncidence = 0
        ∧ (calculateProposalMetrics []).firstPassRate = 0
        ∧ (calculateProposalMetrics []).collectionEfficiency = 0
        ∧ (calculateProposalMetrics []).revenueLeakageRate = 0
        ∧ (calculateProposalMetrics []).highValueClaimsPercentage = 0
        ∧ (calculateProposalMetrics []).averageClaimAmount = 0) :=
  ⟨rfl, C3_zero_claims_all_rates_zero [] rfl⟩

/-- C4: healthScore is exactly min(90, (100 - denialRate)*0.4 +
collectionEfficiency*0.4 + (100 - queryIncidence)*0.2) for every input, so
it never exceeds 90; at the one-paid-claim example the unclamped blend is
100 while healthScore is 90. -/
theorem C4_healthScore_clamped_min90 :
    (∀ data : List RawRow,
        (calculateProposalMetrics data).healthScore
            = min 90 ((100 - (calculateProposalMetrics data).denialRate) * 0.4
                + (calculateProposalMetrics data).collectionEfficiency * 0.4
                + (100 - (calculateProposalMetrics data).queryIncidence) * 0.2)
          ∧ (calculateProposalMetrics data).healthScore ≤ 90)
      ∧ (100 - (calculateProposalMetrics exPaidRows).denialRate) * 0.4
            + (calculateProposalMetrics exPaidRows).collectionEfficiency * 0.4
            + (100 - (calculateProposalMetrics exPaidRows).queryIncidence) * 0.2 = 100
      ∧ (calculateProposalMetrics exPaidRows).healthScore = 90 := by
  exact ⟨fun data => ⟨rfl, min_le_left _ _⟩, by decide, by decide⟩

/-- C5: validation fails with the dedicated no-data error on empty input,
fails with an error enumerating the missing required columns when the first
record lacks any of the six required columns, and succeeds otherwise; a
first record lacking only TID yields exactly the message the claim
states. -/
theorem C5_validateMAAClaims_errors :
    validateMAAClaims [] = { valid := false, error := some "No data found" }
      ∧ (∀ (row : RawRow) (rest : List RawRow),
          validateMAAClaims (row :: rest)
            = if missingColumnsOf row = [] then { valid := true, error := none }
              else { valid := false,
                     error := some ("Missing required columns: "
                       ++ String.intercalate ", " (missingColumnsOf row)) })
      ∧ validateMAAClaims [exRowNoTID]
          = { valid := false, error := some "Missing required columns: TID" } := by
  refine ⟨rfl, ?_, by decide⟩
  intro row rest
  by_cases hm : missingColumnsOf row = []
  · simp [validateMAAClaims, hm]
  · have hl : 0 < (missingColumnsOf row).length := List.length_pos.mpr hm
    simp [validateMAAClaims, hm, hl]

/-- C6: totalPaidAmount is exactly the row-granularity sum of Approved
Amount over normalized rows whose Status contains Claim Paid; at the
example with a TID-less paid row it differs from the claim-level sum of the
Actual Paid Amount accumulators, so it is not derivable from those. -/
theorem C6_totalPaidAmount_row_granularity :
    (∀ data : List RawRow,
        (calculateProposalMetrics data).totalPaidAmount = rowLevelPaidSum data)
      ∧ (calculateProposalMetrics exNoTidRows).totalPaidAmount
          ≠ claimLevelPaidSum exNoTidRows := by
  constructor
  · intro data
    have h := foldl_add_eq_sum_map (fun row : NormalizedRow => row.ApprovedAmount)
      ((preprocessMAAClaims data).filter (fun row => statusIncludes row.Status "Claim Paid")) 0
    rw [zero_add] at h
    exact h
  · decide

/-- C7: parseNumber is total by construction; it maps the three cited inputs
to 123456, 0 and 0, it computes by parsing the [0-9.-]-filtered character
list with 0 for an unparseable remainder, and it is invariant under
pre-stripping every character outside [0-9.-]. -/
theorem C7_parseNumber_total_strip_parse :
    parseNumber "₹1,23,456.00" = 123456
      ∧ parseNumber "" = 0
      ∧ parseNumber "abc" = 0
      ∧ (∀ s : String,
          parseNumber s
            = match parseFloatQ (s.toList.filter numericChar) with
              | some q => q
              | none => 0)
      ∧ ∀ s : String, parseNumber s = parseNumber (String.mk (s.toList.filter numericChar)) := by
  refine ⟨by decide, rfl, by decide, ?_, ?_⟩
  · intro s
    by_cases hs : s = ""
    · subst hs; rfl
    · simp [parseNumber, hs]
  · intro s
    by_cases hs : s = ""
    · subst hs; rfl
    · by_cases hn : s.toList.filter numericChar = []
      · unfold parseNumber
        rw [if_neg hs, hn]
        rfl
      · have hmk : String.mk (s.toList.filter numericChar) ≠ "" := by
          intro hcon
          exact hn (by
            have : (String.mk (s.toList.filter numericChar)).data = ("" : String).data :=
              congrArg String.data hcon
            exact this)
        simp only [parseNumber, if_neg hs, if_neg hmk]
        have hfix : (String.mk (s.toList.filter numericChar)).toList.filter numericChar
            = s.toList.filter numericChar := by
          show (s.toList.filter numericChar).filter numericChar = s.toList.filter numericChar
          rw [List.filter_filter]
          simp
        rw [hfix]

theorem actualPaid_of_statusIncludes (row : RawRow) :
    (if statusIncludes row.Status "Claim Paid" then parseNumberOpt row.ApprovedAmount else 0)
      = actualPaidSpec row := by
  unfold actualPaidSpec
  cases hst : row.Status with
  | none => simp [statusIncludes]
  | some s =>
    by_cases hs : s = ""
    · subst hs
      simp [statusIncludes, show includesStr "" "Claim Paid" = false from by decide]
    · simp [statusIncludes, hs]

/-- C8 amended: per row, Days to Payment is the parsed explicit field when
that field is present with a non-empty (truthy) value, else the clamped
floored day difference when both dates parsed, else 0; and Actual Paid
Amount is the parsed Approved Amount exactly when Status contains the
case-sensitive substring Claim Paid. -/
theorem C8_normalization_derivations (data : List RawRow) :
    (preprocessMAAClaims data).map NormalizedRow.DaysToPayment = data.map daysToPaymentSpec
      ∧ (preprocessMAAClaims data).map NormalizedRow.ActualPaidAmount
          = data.map actualPaidSpec := by
  constructor
  · unfold preprocessMAAClaims
    rw [List.map_map]
    exact List.map_congr_left (fun row _ => rfl)
  · unfold preprocessMAAClaims
    rw [List.map_map]
    exact List.map_congr_left (fun row _ => actualPaid_of_statusIncludes row)

/-- Counterexample to C8 as stated: at a row whose Days to Payment field is
present but empty while both dates parse five days apart, the code derives
5 from the dates, not the parsed value 0 of the present field. -/
theorem C8_counterexample :
    exRowEmptyDays.DaysToPayment = some ""
      ∧ parseNumberOpt exRowEmptyDays.DaysToPayment = 0
      ∧ (preprocessMAAClaims [exRowEmptyDays]).map NormalizedRow.DaysToPayment = [5]
      ∧ (5 : ℚ) ≠ 0 := by
  refine ⟨rfl, rfl, ?_, by norm_num⟩
  show [((max 0 ⌊(((432000000 - 0 : ℤ) : ℚ)) / msPerDay⌋ : ℤ) : ℚ)] = [5]
  norm_num [msPerDay]

/-- C9: with the fixed roiMultiple 3.5, paybackPeriod is computed as
ceil((expectedTotal/3.5)/(expectedTotal/12)) and therefore equals the
constant 4 for every metrics input with positive expected total, regardless
of the magnitude of the benefit total. -/
theorem C9_paybackPeriod_constant_4 (metrics : MetricsSnapshot)
    (h : 0 < (calculateROIProjections metrics).totalBenefitExpected) :
    (calculateROIProjections metrics).paybackPeriod
        = ⌈((calculateROIProjections metrics).totalBenefitExpected / (3.5 : ℚ))
            / ((calculateROIProjections metrics).totalBenefitExpected / 12)⌉
      ∧ (calculateROIProjections metrics).paybackPeriod = 4
      ∧ (calculateROIProjections metrics).roiMultiple = 3.5 := by
  have hne : (calculateROIProjections metrics).totalBenefitExpected ≠ 0 := ne_of_gt h
  refine ⟨rfl, ?_, rfl⟩
  have hpb : (calculateROIProjections metrics).paybackPeriod
      = ⌈((calculateROIProjections metrics).totalBenefitExpected / (3.5 : ℚ))
          / ((calculateROIProjections metrics).totalBenefitExpected / 12)⌉ := rfl
  rw [hpb, div_div_div_comm, div_self hne]
  rw [show (1 : ℚ) / ((3.5 : ℚ) / 12) = 24 / 7 by norm_num]
  rw [Int.ceil_eq_iff]
  constructor
  · norm_num
  · norm_num

/-- Witness for C9 at the metrics of the empty input, whose safe defaults
make the expected total positive. -/
theorem C9_witness :
    0 < (calculateROIProjections (calculateProposalMetrics [])).totalBenefitExpected
      ∧ ((calculateROIProjections (calculateProposalMetrics [])).paybackPeriod
            = ⌈((calculateROIProjections (calculateProposalMetrics [])).totalBenefitExpected
                  / (3.5 : ℚ))
                / ((calculateROIProjections (calculateProposalMetrics [])).totalBenefitExpected
                  / 12)⌉
          ∧ (calculateROIProjections (calculateProposalMetrics [])).paybackPeriod = 4
          ∧ (calculateROIProjections (calculateProposalMetrics [])).roiMultiple = 3.5) :=
  ⟨by decide, C9_paybackPeriod_constant_4 (calculateProposalMetrics []) (by decide)⟩

/-- C10: the row-granularity sums include normalized rows without a TID,
which claim aggregation drops; at the example with a TID-less paid row,
totalPaidAmount (150) exceeds totalApprovedAmount (100) and
collectionEfficiency is 150, above 100 percent. -/
theorem C10_tidless_rows_inflate_row_sums :
    (calculateProposalMetrics exNoTidRows).totalPaidAmount = 150
      ∧ (calculateProposalMetrics exNoTidRows).totalApprovedAmount = 100
      ∧ (calculateProposalMetrics exNoTidRows).totalApprovedAmount
          < (calculateProposalMetrics exNoTidRows).totalPaidAmount
      ∧ (calculateProposalMetrics exNoTidRows).collectionEfficiency = 150
      ∧ 100 < (calculateProposalMetrics exNoTidRows).collectionEfficiency := by
  refine ⟨by decide, by decide, by decide, by decide, by decide⟩
